import Mathlib

/-!
Verification of the wsstat command-line tool (measurement orchestrator and
timing-report renderer).  The Go source of `main.go` (current revision, the
one using the go-wsstat burst API) is shallowly embedded below: strings are
`List Char`, durations are `Nat` nanoseconds (Go `time.Duration` values of
measured phases are non-negative), the external go-wsstat instrumentation
library and `encoding/json` are parameters of the embedding, and process
side effects (printing, exiting) are reified as data.
-/

namespace Wsstat

/-- Go strings, modelled as lists of characters. -/
abbrev GoStr := List Char

/-- Literal conversion from a Lean string literal to the model type. -/
def lit (s : String) : GoStr := s.data

/- ### Models of the Go `strings` package operations the tool uses -/

/-- Index of the first occurrence of `sub` in a string, as in Go
`strings.Index`. -/
def findIndexSub (sub : GoStr) : GoStr → Option Nat
  | [] => if sub.isEmpty then some 0 else none
  | c :: t => if sub.isPrefixOf (c :: t) then some 0 else (findIndexSub sub t).map (· + 1)

/-- Go `strings.Contains s sub`: whether `sub` occurs in `s`. -/
def containsSub (s sub : GoStr) : Bool := (findIndexSub sub s).isSome

/-- Go `strings.SplitN s sep n` for `n ≥ 0` (the tool uses `n = 2`): split
around at most `n - 1` occurrences of `sep`. -/
def goSplitN (sep : GoStr) : Nat → GoStr → List GoStr
  | 0, _ => []
  | 1, s => [s]
  | n + 2, s =>
    match findIndexSub sep s with
    | none => [s]
    | some i => s.take i :: goSplitN sep (n + 1) (s.drop (i + sep.length))

/-- Go `strings.Split s sep`: unlimited split; a string of length `L` splits
into at most `L + 1` parts, so fuel `L + 1` realizes the unlimited split. -/
def goSplit (sep s : GoStr) : List GoStr := goSplitN sep (s.length + 1) s

/-- Go `strings.Replace s old new n` for `n ≥ 0` (the tool uses `n = 1`). -/
def goReplace (old new : GoStr) : Nat → GoStr → GoStr
  | 0, s => s
  | n + 1, s =>
    match findIndexSub old s with
    | none => s
    | some i => s.take i ++ new ++ goReplace old new n (s.drop (i + old.length))

/-- Auxiliary fueled count of non-overlapping occurrences. -/
def countSubAux (sub : GoStr) : Nat → GoStr → Nat
  | 0, _ => 0
  | f + 1, s =>
    match findIndexSub sub s with
    | none => 0
    | some i => 1 + countSubAux sub f (s.drop (i + sub.length))

/-- Go `strings.Count s sub` for non-empty `sub`: non-overlapping
occurrences of `sub` in `s`. -/
def countSub (s sub : GoStr) : Nat := countSubAux sub (s.length + 1) s

/-- Characters Go `unicode.IsSpace` accepts within the Latin-1 range; the
header values fed to the tool are command-line text, for which this is the
full set Go would trim. -/
def isGoSpace (c : Char) : Bool :=
  c = ' ' || c = '\t' || c = '\n' || c = '\x0b' || c = '\x0c' || c = '\r' ||
  c = '\x85' || c = '\xa0'

/-- Go `strings.TrimSpace`: drop leading and trailing whitespace. -/
def trimSpace (s : GoStr) : GoStr :=
  ((s.dropWhile isGoSpace).reverse.dropWhile isGoSpace).reverse

/-- Decimal digits of a natural number, as Go `strconv.Itoa` renders a
non-negative int. -/
def natToStr (n : Nat) : GoStr := Nat.toDigits 10 n

/- ### Formatting helpers of main.go -/

/-- Whole milliseconds of a duration given in nanoseconds: Go
`int(d / time.Millisecond)` / `d.Milliseconds()` for non-negative `d`. -/
def msVal (d : Nat) : Nat := d / 1000000

/-- Left padding to a field width, as `fmt.Sprintf` `%7d` pads a number. -/
def padLeftTo (w : Nat) (s : GoStr) : GoStr := List.replicate (w - s.length) ' ' ++ s

/-- Right padding to a field width, as `fmt.Sprintf` `%-8s` pads a string. -/
def padRightTo (w : Nat) (s : GoStr) : GoStr := s ++ List.replicate (w - s.length) ' '

/-- `formatPadLeft` of main.go: `fmt.Sprintf("%7dms", int(d/time.Millisecond))`. -/
def formatPadLeft (d : Nat) : GoStr := padLeftTo 7 (natToStr (msVal d)) ++ lit "ms"

/-- `formatPadRight` of main.go:
`fmt.Sprintf("%-8s", strconv.Itoa(int(d/time.Millisecond))+"ms")`. -/
def formatPadRight (d : Nat) : GoStr := padRightTo 8 (natToStr (msVal d) ++ lit "ms")

/-- `customColor` of main.go: wrap text in a 24-bit ANSI color sequence. -/
def customColor (r g b : Nat) (text : GoStr) : GoStr :=
  lit "\x1b[38;2;" ++ natToStr r ++ lit ";" ++ natToStr g ++ lit ";" ++ natToStr b ++
  lit "m" ++ text ++ lit "\x1b[0m"

/-- `colorWSOrange` of main.go. -/
def colorWSOrange (text : GoStr) : GoStr := customColor 255 102 0 text

/-- `colorTeaGreen` of main.go. -/
def colorTeaGreen (text : GoStr) : GoStr := customColor 211 249 181 text

/- ### Print templates of main.go -/

/-- The `wssPrintTemplate` string of main.go (5-phase secure layout). -/
def wssPrintTemplate : GoStr := lit (
  "  DNS Lookup    TCP Connection    TLS Handshake    WS Handshake    Message RTT\n" ++
  "|%s  |      %s  |     %s  |    %s  |   %s  |\n" ++
  "|           |                 |                |               |              |\n" ++
  "|  DNS lookup:%s        |                |               |              |\n" ++
  "|                 TCP connected:%s       |               |              |\n" ++
  "|                                       TLS done:%s      |              |\n" ++
  "|                                                        WS done:%s     |\n" ++
  "-                                                                         Total:%s\n")

/-- The `wsPrintTemplate` string of main.go (4-phase insecure layout). -/
def wsPrintTemplate : GoStr := lit (
  "  DNS Lookup    TCP Connection    WS Handshake    Message RTT\n" ++
  "|%s  |      %s  |    %s  |  %s   |\n" ++
  "|           |                 |               |              |\n" ++
  "|  DNS lookup:%s        |               |              |\n" ++
  "|                 TCP connected:%s      |              |\n" ++
  "|                                       WS done:%s     |\n" ++
  "-                                                        Total:%s\n")

/- ### Data model -/

/-- The `wsstat.Result` record as main.go reads it: phase durations and
cumulative done-at markers in nanoseconds, plus the message count.  It is
produced by the external go-wsstat instrumentation collaborator. -/
structure Result where
  DNSLookup : Nat
  TCPConnection : Nat
  TLSHandshake : Nat
  WSHandshake : Nat
  MessageRTT : Nat
  DNSLookupDone : Nat
  TCPConnected : Nat
  TLSHandshakeDone : Nat
  WSHandshakeDone : Nat
  TotalTime : Nat
  MessageCount : Nat
  deriving Repr, DecidableEq

/-- The part of a `net/url.URL` value the tool inspects: the scheme and the
remainder of the URL text. -/
structure URL where
  scheme : GoStr
  rest : GoStr
  deriving Repr, DecidableEq

/-- A Go ASCII control byte, `b < ' ' || b == 0x7f`, as `net/url` rejects. -/
def isCTL (c : Char) : Bool := c.toNat < 32 || c.toNat = 127

/-- Whether a URL string contains a control character. -/
def containsCTL (s : GoStr) : Bool := s.any isCTL

/-- ASCII letter test, per `net/url`'s scheme scanner. -/
def isSchemeAlpha (c : Char) : Bool :=
  ('a'.toNat ≤ c.toNat && c.toNat ≤ 'z'.toNat) ||
  ('A'.toNat ≤ c.toNat && c.toNat ≤ 'Z'.toNat)

/-- Digit or one of `+ - .`, the non-leading scheme characters of `net/url`. -/
def isSchemeExtra (c : Char) : Bool :=
  ('0'.toNat ≤ c.toNat && c.toNat ≤ '9'.toNat) || c = '+' || c = '-' || c = '.'

/-- ASCII lowercasing of a character, as `strings.ToLower` acts on scheme text. -/
def lowerChar (c : Char) : Char :=
  if 'A'.toNat ≤ c.toNat && c.toNat ≤ 'Z'.toNat then Char.ofNat (c.toNat + 32) else c

/-- Modelled from the Go standard library: the scheme scanner of
`net/url.Parse` (`getScheme`).  `acc` holds the characters read so far and
`orig` the whole input, returned unchanged when no scheme is found. -/
def getSchemeAux (orig : GoStr) (acc : GoStr) : GoStr → Except GoStr (GoStr × GoStr)
  | [] => .ok ([], orig)
  | c :: rest =>
    if isSchemeAlpha c then getSchemeAux orig (acc ++ [c]) rest
    else if isSchemeExtra c then
      if acc.isEmpty then .ok ([], orig) else getSchemeAux orig (acc ++ [c]) rest
    else if c = ':' then
      if acc.isEmpty then .error (lit "missing protocol scheme")
      else .ok (acc.map lowerChar, rest)
    else .ok ([], orig)

/-- Modelled from the Go standard library: `net/url.Parse` restricted to
what the tool observes — rejection of control characters, the scheme
scanner, and the remaining URL text; finer host/port validation of the
external stdlib is not modelled. -/
def urlParse (s : GoStr) : Except GoStr URL :=
  if containsCTL s then .error (lit "net/url: invalid control character in URL")
  else
    match getSchemeAux s [] s with
    | .error e => .error e
    | .ok (scheme, rest) => .ok ⟨scheme, rest⟩

/- ### URI resolver and header builder of main.go -/

/-- `parseWSURI` of main.go: prefix a scheme-less input with `wss://`
(`ws://` when the insecure flag is set), then parse. -/
def parseWSURI (insecure : Bool) (rawURI : GoStr) : Except GoStr URL :=
  if !containsSub rawURI (lit "://") then
    urlParse ((if insecure then lit "ws://" else lit "wss://") ++ rawURI)
  else
    urlParse rawURI

/-- A header set as the sequence of `(name, value)` pairs handed to
`http.Header.Add`, in order. -/
abbrev HeaderSet := List (GoStr × GoStr)

/-- `parseHeaders` of main.go: split the spec on commas, split each part
around its first colon (`strings.SplitN(part, ":", 2)`), trim both sides,
`log.Fatalf` (modelled as `none`) when a part has no colon. -/
def parseHeaders (headers : GoStr) : Option HeaderSet :=
  if headers.isEmpty then some []
  else
    (goSplit (lit ",") headers).mapM fun part =>
      match goSplitN (lit ":") 2 part with
      | [n, v] => some (trimSpace n, trimSpace v)
      | _ => none

/- ### Flags and input validation of main.go -/

/-- The global flag variables of main.go, gathered into one record.  `burst`
is a Go `int` and may be negative on the command line. -/
structure Flags where
  burst : Int := 1
  inputHeaders : GoStr := []
  jsonMethod : GoStr := []
  textMessage : GoStr := []
  rawOutput : Bool := false
  showVersion : Bool := false
  insecure : Bool := false
  basic : Bool := false
  quiet : Bool := false
  verbose : Bool := false
  deriving Repr, DecidableEq

/-- Outcome of `parseValidateInput`: the version early exit, a returned
input error (main then prints the error and the usage text and exits), or
the parsed URL together with the two print templates as they stand after
the burst label substitution. -/
inductive ValidateOutcome where
  | versionExit
  | inputError (msg : GoStr)
  | ok (u : URL) (wssTmpl wsTmpl : GoStr)
  deriving Repr, DecidableEq

/-- `parseValidateInput` of main.go: version exit, mutually exclusive
verbosity flags, mutually exclusive messaging flags, exactly one positional
argument, URI parsing, and — when `burst > 1` — the single
`strings.Replace(tmpl, "Message RTT", "Mean Message RTT", 1)` applied to
each template before anything is rendered. -/
def parseValidateInput (fl : Flags) (args : List GoStr) : ValidateOutcome :=
  if fl.showVersion then .versionExit
  else if (fl.basic && fl.verbose) || (fl.basic && fl.quiet) || (fl.verbose && fl.quiet) then
    .inputError (lit "mutually exclusive verbosity flags")
  else if !fl.textMessage.isEmpty && !fl.jsonMethod.isEmpty then
    .inputError (lit "mutually exclusive messaging flags")
  else if args.length ≠ 1 then .inputError (lit "invalid number of arguments")
  else
    match args with
    | [arg] =>
      match parseWSURI fl.insecure arg with
      | .error e => .inputError (lit "error parsing input URI: " ++ e)
      | .ok u =>
        if fl.burst > 1 then
          .ok u (goReplace (lit "Message RTT") (lit "Mean Message RTT") 1 wssPrintTemplate)
               (goReplace (lit "Message RTT") (lit "Mean Message RTT") 1 wsPrintTemplate)
        else .ok u wssPrintTemplate wsPrintTemplate
    | _ => .inputError (lit "invalid number of arguments")

/- ### Error classifier of main.go -/

/-- The transport-layer diagnostic main.go looks for in failure messages. -/
def tlsRecordDiagnostic : GoStr := lit "tls: first record does not look like a TLS handshake"

/-- `handleConnectionError` of main.go (current revision): re-wrap a
transport failure, choosing the message by whether the failure text
contains the TLS first-record diagnostic. -/
def handleConnectionError (err url : GoStr) : GoStr :=
  if containsSub err tlsRecordDiagnostic then
    lit "error establishing secure WS connection to '" ++ url ++ lit "': " ++ err
  else
    lit "error establishing WS connection to '" ++ url ++ lit "': " ++ err

/- ### Response payloads and the external collaborators -/

/-- A dynamically typed Go value as main.go's type switches see it: the
response payload returned by the instrumentation library. -/
inductive GoValue where
  | str (s : GoStr)
  | strList (l : List GoStr)
  | obj (m : List (GoStr × GoValue))
  | arr (l : List GoValue)
  | bytes (b : List Nat)

/-- Whether a decoded object has a given key, as the Go map lookup
`responseMap["jsonrpc"]` reports presence. -/
def hasKey (m : List (GoStr × GoValue)) (k : GoStr) : Bool := m.any (fun p => p.1 = k)

/-- The external go-wsstat instrumentation collaborator: the three
measurement entry points main.go calls, each returning a transport failure
or a populated `Result` (with the decoded response where applicable). -/
structure Collaborator where
  measureBurst : URL → List GoStr → HeaderSet → Except GoStr (Result × GoValue)
  measureJSONBurst : URL → List (GoStr × GoStr × GoStr) → HeaderSet → Except GoStr (Result × GoValue)
  measurePingBurst : URL → Int → HeaderSet → Except GoStr Result

/-- The external `encoding/json` collaborator: `json.Unmarshal` of a string
into `map[string]interface{}`, returning the decoded object or the decode
error's message. -/
abbrev Unmarshal := GoStr → Except GoStr (List (GoStr × GoValue))

/- ### Measurement invoker of main.go -/

/-- Outcome of `measureLatency`: a Go runtime panic (from
`make([]string, n)` with negative `n`), a returned error, or a result with
an optional response. -/
inductive MeasureOutcome where
  | panicked
  | err (msg : GoStr)
  | ok (r : Result) (resp : Option GoValue)

/-- `make([]T, n)` of Go, filled with copies of `x` by the subsequent loop:
panics (here `none`) when `n` is negative. -/
def mkSlice {α : Type} (n : Int) (x : α) : Option (List α) :=
  if n < 0 then none else some (List.replicate n.toNat x)

/-- `url.String()` on the modelled URL: scheme, colon, remainder. -/
def urlString (u : URL) : GoStr :=
  if u.scheme.isEmpty then u.rest else u.scheme ++ lit ":" ++ u.rest

/-- The JSON-RPC envelope main.go builds for the `-json` flag:
`{method, id: "1", jsonrpc: "2.0"}`. -/
def jsonEnvelope (method : GoStr) : GoStr × GoStr × GoStr := (method, lit "1", lit "2.0")

/-- `measureLatency` of main.go: dispatch on the message flags, forward the
burst count, wrap transport failures through `handleConnectionError`, pick
the first element of a non-empty `[]string` response, and in text mode with
raw output unset JSON-decode the string response (failure aborts the
invocation with an unmarshalling error). -/
def measureLatency (fl : Flags) (col : Collaborator) (unm : Unmarshal)
    (u : URL) (header : HeaderSet) : MeasureOutcome :=
  if !fl.textMessage.isEmpty then
    match mkSlice fl.burst fl.textMessage with
    | none => .panicked
    | some msgs =>
      match col.measureBurst u msgs header with
      | .error e => .err (handleConnectionError e (urlString u))
      | .ok (result, response0) =>
        let response :=
          match response0 with
          | .strList (x :: _) => .str x
          | other => other
        if !fl.rawOutput then
          match response with
          | .str s =>
            match unm s with
            | .error e => .err (lit "error unmarshalling JSON message: " ++ e)
            | .ok m => .ok result (some (.obj m))
          | other => .ok result (some other)
        else .ok result (some response)
  else if !fl.jsonMethod.isEmpty then
    match mkSlice fl.burst (jsonEnvelope fl.jsonMethod) with
    | none => .panicked
    | some msgs =>
      match col.measureJSONBurst u msgs header with
      | .error e => .err (handleConnectionError e (urlString u))
      | .ok (result, response) => .ok result (some response)
  else
    match col.measurePingBurst u fl.burst header with
    | .error e => .err (handleConnectionError e (urlString u))
    | .ok result => .ok result none

/- ### Timing report renderers of main.go -/

/-- The byte-level effect of `fmt.Fprintf(w, tmpl, args...)` for templates
whose only verbs are `%s`: each `%s` is replaced in order by the next
argument. -/
def goFormat (tmpl : GoStr) (args : List GoStr) : GoStr :=
  match tmpl with
  | [] => []
  | c :: rest =>
    if c = '%' then
      match rest, args with
      | 's' :: r2, a :: as2 => a ++ goFormat r2 as2
      | 's' :: r2, [] => '%' :: 's' :: goFormat r2 []
      | r, as => c :: goFormat r as
    else c :: goFormat rest args
termination_by tmpl.length
decreasing_by all_goals simp_wf <;> omega

/-- The phase durations `printTimingResultsTiered` prints in the top row of
the secure (wss) layout, in template order. -/
def wssDurations (r : Result) : List Nat :=
  [r.DNSLookup, r.TCPConnection, r.TLSHandshake, r.WSHandshake, r.MessageRTT]

/-- The cumulative done-at markers of the secure layout, in template order
(the final marker printed is `TotalTime`). -/
def wssCumulatives (r : Result) : List Nat :=
  [r.DNSLookupDone, r.TCPConnected, r.TLSHandshakeDone, r.WSHandshakeDone]

/-- The phase durations of the insecure (ws) layout, TLS omitted. -/
def wsDurations (r : Result) : List Nat :=
  [r.DNSLookup, r.TCPConnection, r.WSHandshake, r.MessageRTT]

/-- The cumulative done-at markers of the insecure layout. -/
def wsCumulatives (r : Result) : List Nat :=
  [r.DNSLookupDone, r.TCPConnected, r.WSHandshakeDone]

/-- The argument list main.go passes to `Fprintf` for the wss template. -/
def wssArgs (r : Result) : List GoStr :=
  (wssDurations r).map (fun d => colorTeaGreen (formatPadLeft d)) ++
  (wssCumulatives r).map (fun d => colorTeaGreen (formatPadRight d)) ++
  [colorWSOrange (formatPadRight r.TotalTime)]

/-- The argument list main.go passes to `Fprintf` for the ws template. -/
def wsArgs (r : Result) : List GoStr :=
  (wsDurations r).map (fun d => colorTeaGreen (formatPadLeft d)) ++
  (wsCumulatives r).map (fun d => colorTeaGreen (formatPadRight d)) ++
  [colorWSOrange (formatPadRight r.TotalTime)]

/-- `printTimingResultsTiered` of main.go: a blank line, then the diagram
chosen by the URL scheme — the wss template, the ws template, or nothing at
all when the scheme matches neither case of the switch — then a blank
line.  The templates are the ones `parseValidateInput` produced. -/
def printTimingResultsTiered (wssTmpl wsTmpl : GoStr) (u : URL) (r : Result) : GoStr :=
  lit "\n" ++
  (if u.scheme = lit "wss" then goFormat wssTmpl (wssArgs r)
   else if u.scheme = lit "ws" then goFormat wsTmpl (wsArgs r)
   else []) ++
  lit "\n"

/-- The round-trip label of `printTimingResultsBasic`: switched to the mean
framing when the burst flag exceeds 1. -/
def rttLabel (burst : Int) : GoStr :=
  if burst > 1 then lit "Mean round-trip time" else lit "Round-trip time"

/-- The message-count noun of `printTimingResultsBasic`. -/
def msgCountLabel (c : Nat) : GoStr := if c > 1 then lit "messages" else lit "message"

/-- `printTimingResultsBasic` of main.go: round-trip line with the message
count, then the total time line. -/
def printTimingResultsBasic (burst : Int) (r : Result) : GoStr :=
  lit "\n" ++ rttLabel burst ++ lit ": " ++
  colorWSOrange (natToStr (msVal r.MessageRTT) ++ lit "ms") ++
  lit " (" ++ natToStr r.MessageCount ++ lit " " ++ msgCountLabel r.MessageCount ++ lit ")\n" ++
  lit "Total time: " ++ colorWSOrange (natToStr (msVal r.TotalTime) ++ lit "ms") ++ lit "\n\n"

/- ### Response renderer of main.go -/

/-- The presentation `printResponse` selects for a payload: nothing (nil
response), the raw `%v` print, a JSON-encoded object, an object or
sequence or byte slice in its native form, or no matching type-switch case
(nothing printed beyond the framing). -/
inductive ResponseRendering where
  | nothing
  | raw (v : GoValue)
  | jsonEncoded (m : List (GoStr × GoValue))
  | nativeObj (m : List (GoStr × GoValue))
  | nativeArr (l : List GoValue)
  | nativeBytes (b : List Nat)
  | unmatched (v : GoValue)

/-- `printResponse` of main.go, reified as the presentation choice: raw
output short-circuits the type switch; a `map[string]interface{}` payload
is JSON-encoded exactly when it has a `jsonrpc` key or the `-json` method
flag was given, and printed natively otherwise; `[]interface{}` and
`[]byte` payloads print natively; other payload types match no case. -/
def printResponseChoice (fl : Flags) (resp : Option GoValue) : ResponseRendering :=
  match resp with
  | none => .nothing
  | some v =>
    if fl.rawOutput then .raw v
    else
      match v with
      | .obj m => if hasKey m (lit "jsonrpc") || !fl.jsonMethod.isEmpty then .jsonEncoded m
                  else .nativeObj m
      | .arr l => .nativeArr l
      | .bytes b => .nativeBytes b
      | other => .unmatched other

/- ### The main pipeline of main.go -/

/-- The observable outcome of one invocation of `main`: the version early
exit, an input-validation failure (error text plus usage printed, then
`os.Exit(1)`), the `log.Fatalf` of a malformed header spec, a Go runtime
panic, a measurement failure (error printed, `os.Exit(1)`, no usage), or a
successful run with its rendered response choice. -/
inductive ProgOutcome where
  | versionExit
  | inputFailure (msg : GoStr)
  | headerFatal
  | panicked
  | measureFailure (msg : GoStr)
  | success (r : Result) (rendered : ResponseRendering)

/-- `main` of main.go: validate input, build headers, measure, then render.
The collaborators are explicit parameters; rendering is reified in the
outcome. -/
def mainRun (fl : Flags) (col : Collaborator) (unm : Unmarshal)
    (args : List GoStr) : ProgOutcome :=
  match parseValidateInput fl args with
  | .versionExit => .versionExit
  | .inputError m => .inputFailure m
  | .ok u _ _ =>
    match parseHeaders fl.inputHeaders with
    | none => .headerFatal
    | some header =>
      match measureLatency fl col unm u header with
      | .panicked => .panicked
      | .err m => .measureFailure m
      | .ok r resp => .success r (printResponseChoice fl resp)

/-- The process exit code of an outcome.  The current main.go exits with
code 1 both for input-validation failures and for measurement failures;
`log.Fatalf` also exits 1; a Go runtime panic terminates with code 2. -/
def exitCode : ProgOutcome → Nat
  | .versionExit => 0
  | .inputFailure _ => 1
  | .headerFatal => 1
  | .panicked => 2
  | .measureFailure _ => 1
  | .success _ _ => 0

/-- Whether the usage text is printed: only on the input-validation path. -/
def usagePrinted : ProgOutcome → Bool
  | .inputFailure _ => true
  | _ => false

/-- Whether the run reached the instrumentation collaborator.  The panic of
`make([]string, n)` with negative `n` happens before the collaborator
call. -/
def measurementAttempted : ProgOutcome → Bool
  | .measureFailure _ => true
  | .success _ _ => true
  | _ => false

/-- Whether the run ended in a Go runtime panic. -/
def ranIntoPanic : ProgOutcome → Bool
  | .panicked => true
  | _ => false

/- ### Helper lemmas about the string models -/

/-- `containsSub` agrees with list infixhood. -/
lemma containsSub_iff (s sub : GoStr) : containsSub s sub = true ↔ sub <:+: s := by
  induction s with
  | nil =>
    simp only [containsSub, findIndexSub]
    constructor
    · intro h
      have : sub.isEmpty = true := by
        by_cases hs : sub.isEmpty
        · exact hs
        · simp [hs] at h
      simp [List.isEmpty_iff] at this
      simp [this]
    · intro h
      have : sub = [] := List.eq_nil_of_infix_nil h
      simp [this]
  | cons c t ih =>
    simp only [containsSub, findIndexSub]
    by_cases hp : sub.isPrefixOf (c :: t)
    · simp only [hp, if_true]
      constructor
      · intro _
        exact (List.isPrefixOf_iff_prefix.mp hp).isInfix
      · intro _; rfl
    · simp only [hp, Bool.false_eq_true, if_false, Option.isSome_map']
      rw [show (findIndexSub sub t).isSome = containsSub t sub from rfl, ih]
      constructor
      · intro h; exact List.infix_cons h
      · intro h
        rcases List.infix_cons_iff.mp h with h1 | h2
        · exact absurd (List.isPrefixOf_iff_prefix.mpr h1) hp
        · exact h2

/-- A string occurring as a contiguous segment is found by `containsSub`. -/
lemma containsSub_of_seg {s t : GoStr} (a b : GoStr) (h : s = a ++ t ++ b) :
    containsSub s t = true := by
  rw [containsSub_iff, h]; exact List.infix_append a t b

/-- `containsSub` is preserved when the string grows on either side. -/
lemma containsSub_grow {s t : GoStr} (a b : GoStr) (h : containsSub s t = true) :
    containsSub (a ++ s ++ b) t = true := by
  rw [containsSub_iff] at h ⊢
  exact h.trans (List.infix_append a s b)

/-- `goFormat` on a head character that is not a percent sign. -/
lemma goFormat_cons {c : Char} (rest : GoStr) (args : List GoStr) (h : c ≠ '%') :
    goFormat (c :: rest) args = c :: goFormat rest args := by
  rw [goFormat.eq_def]
  simp [h]

/-- `goFormat` copies a percent-free template head verbatim. -/
lemma goFormat_append {pre : GoStr} (rest : GoStr) (args : List GoStr)
    (h : pre.all (fun c => c ≠ '%') = true) :
    goFormat (pre ++ rest) args = pre ++ goFormat rest args := by
  induction pre with
  | nil => simp
  | cons c cs ih =>
    simp only [List.all_cons, Bool.and_eq_true, decide_eq_true_eq] at h
    rw [List.cons_append, goFormat_cons _ _ h.1]
    exact congrArg (c :: ·) (ih h.2)

/-- A target occurring in a percent-free head of the template survives
`goFormat` substitution. -/
lemma containsSub_goFormat_of_head {tmpl : GoStr} (pre t : GoStr) (args : List GoStr)
    (hpre : pre.isPrefixOf tmpl = true) (hnp : pre.all (fun c => c ≠ '%') = true)
    (ht : containsSub pre t = true) : containsSub (goFormat tmpl args) t = true := by
  obtain ⟨rest, hrest⟩ := List.isPrefixOf_iff_prefix.mp hpre
  subst hrest
  rw [goFormat_append rest args hnp, containsSub_iff]
  rw [containsSub_iff] at ht
  exact ht.trans ⟨[], goFormat rest args, by simp⟩

/-- A control-character-free tail keeps a concatenation clean whenever the
head is clean too. -/
lemma containsCTL_append (p s : GoStr) (hp : containsCTL p = false)
    (hs : containsCTL s = false) : containsCTL (p ++ s) = false := by
  unfold containsCTL at *
  rw [List.any_append, hp, hs]
  rfl

/-- Resolution of an input without a scheme separator: the scheme scanner
of `net/url.Parse` finds precisely the prefix main.go prepended. -/
lemma parseWSURI_noSep (i : Bool) (s : GoStr)
    (h1 : containsSub s (lit "://") = false) (h2 : containsCTL s = false) :
    parseWSURI i s = .ok ⟨if i then lit "ws" else lit "wss", lit "//" ++ s⟩ := by
  cases i with
  | false =>
    simp only [parseWSURI, h1, Bool.not_false, if_true, Bool.false_eq_true, if_false, urlParse]
    rw [containsCTL_append (lit "wss://") s (by decide) h2]
    rfl
  | true =>
    simp only [parseWSURI, h1, Bool.not_false, if_true, urlParse]
    rw [containsCTL_append (lit "ws://") s (by decide) h2]
    rfl

/-- Splitting a segment at its first colon, written from the spec's words
("splits each segment on the first colon only, so values may themselves
contain colons"); compared below against the `strings.SplitN` call the
source performs. -/
def splitAtFirstColon : GoStr → Option (GoStr × GoStr)
  | [] => none
  | c :: t =>
    if c = ':' then some ([], t)
    else (splitAtFirstColon t).map (fun p => (c :: p.1, p.2))

/-- `splitAtFirstColon` in terms of the index of the first colon. -/
lemma splitAtFirstColon_eq (s : GoStr) :
    splitAtFirstColon s =
      (findIndexSub (lit ":") s).map (fun i => (s.take i, s.drop (i + 1))) := by
  induction s with
  | nil => rfl
  | cons c t ih =>
    by_cases hc : c = ':'
    · subst hc
      simp [splitAtFirstColon, findIndexSub, List.isPrefixOf]
    · have hcs : (':' : Char) ≠ c := fun e => hc e.symm
      simp only [splitAtFirstColon, hc, if_false, findIndexSub]
      rw [show List.isPrefixOf (lit ":") (c :: t) = false by
        simp [lit, List.isPrefixOf, hcs]]
      simp only [Bool.false_eq_true, if_false, ih]
      cases hfi : findIndexSub (lit ":") t with
      | none => rfl
      | some i => simp

/-- The `strings.SplitN(part, ":", 2)` call of `parseHeaders` realizes the
first-colon split. -/
lemma goSplitN_two_colon (part : GoStr) :
    goSplitN (lit ":") 2 part =
      match splitAtFirstColon part with
      | none => [part]
      | some (a, b) => [a, b] := by
  rw [splitAtFirstColon_eq]
  cases h : findIndexSub (lit ":") part with
  | none => simp [goSplitN, h]
  | some i =>
    simp only [goSplitN, h, Option.map_some]
    rw [show (lit ":").length = 1 from rfl]
    rfl

/-- C2: for an input without a scheme separator, `parseWSURI` prepends
`wss://` (insecure flag unset) or `ws://` (insecure flag set), making the
resolved scheme `wss` resp. `ws`; an input with a scheme separator is
handed to `url.Parse` exactly as given. -/
theorem uriResolver_scheme_selection :
    (∀ (i : Bool) (s : GoStr), containsSub s (lit "://") = false →
      parseWSURI i s = urlParse ((if i then lit "ws://" else lit "wss://") ++ s)) ∧
    (∀ s : GoStr, containsSub s (lit "://") = false → containsCTL s = false →
      parseWSURI false s = .ok ⟨lit "wss", lit "//" ++ s⟩ ∧
      parseWSURI true s = .ok ⟨lit "ws", lit "//" ++ s⟩) ∧
    (∀ (i : Bool) (s : GoStr), containsSub s (lit "://") = true →
      parseWSURI i s = urlParse s) := by
  refine ⟨?_, ?_, ?_⟩
  · intro i s h
    simp [parseWSURI, h]
  · intro s h1 h2
    exact ⟨by simpa using parseWSURI_noSep false s h1 h2,
           by simpa using parseWSURI_noSep true s h1 h2⟩
  · intro i s h
    simp [parseWSURI, h]

/-- C2 witness: resolving the bare host `example.org` yields scheme `wss`
without the insecure flag and `ws` with it. -/
theorem uriResolver_scheme_selection_witness :
    parseWSURI false (lit "example.org") = .ok ⟨lit "wss", lit "//" ++ lit "example.org"⟩ ∧
    parseWSURI true (lit "example.org") = .ok ⟨lit "ws", lit "//" ++ lit "example.org"⟩ :=
  uriResolver_scheme_selection.2.1 (lit "example.org") (by decide) (by decide)

/-- C3: `parseHeaders` splits the spec string on commas, splits every
segment at its first colon only (values may contain colons), trims both
name and value, fails (fatally) on a segment without a colon, and maps the
empty input to the empty header set without error.  The concrete conjuncts
instantiate the spec's own examples. -/
theorem headerBuilder_spec :
    (∀ s : GoStr, parseHeaders s =
      if s.isEmpty then some []
      else (goSplit (lit ",") s).mapM fun part =>
        (splitAtFirstColon part).map fun p => (trimSpace p.1, trimSpace p.2)) ∧
    parseHeaders (lit "a:1, b: 2,c:3") =
      some [(lit "a", lit "1"), (lit "b", lit "2"), (lit "c", lit "3")] ∧
    parseHeaders (lit "k:v:w") = some [(lit "k", lit "v:w")] ∧
    parseHeaders (lit "a") = none ∧
    parseHeaders [] = some [] := by
  refine ⟨?_, by decide, by decide, by decide, by decide⟩
  intro s
  unfold parseHeaders
  by_cases hs : s.isEmpty
  · simp [hs]
  · simp only [hs, Bool.false_eq_true, if_false]
    congr 1
    funext part
    rw [goSplitN_two_colon]
    cases hsc : splitAtFirstColon part with
    | none => rfl
    | some p => cases p; rfl

/-- A Result whose phase durations sum to the total exactly at nanosecond
precision while each duration carries a fractional half millisecond. -/
def fracResult : Result :=
  ⟨1500000, 1500000, 1500000, 1500000, 1500000,
   1500000, 3000000, 4500000, 6000000, 7500000, 1⟩

/-- C1 counterexample: for this Result the nanosecond durations sum to the
total, yet the whole-millisecond values the tiered renderer prints in the
top row sum to 5 while the printed Total reads 7. -/
theorem tieredSum_counterexample :
    (wssDurations fracResult).sum = fracResult.TotalTime ∧
    ((wssDurations fracResult).map msVal).sum ≠ msVal fracResult.TotalTime := by decide

/-- C1 amended: when every phase duration is a whole number of milliseconds
and the durations sum to the total, the whole-millisecond phase values the
tiered renderer prints (via `formatPadLeft`, in both the wss and the ws
layout) sum to the printed Total. -/
theorem tieredSum_whole_ms (r : Result)
    (hd : r.DNSLookup % 1000000 = 0) (htc : r.TCPConnection % 1000000 = 0)
    (htl : r.TLSHandshake % 1000000 = 0) (hw : r.WSHandshake % 1000000 = 0)
    (hm : r.MessageRTT % 1000000 = 0) :
    ((wssDurations r).sum = r.TotalTime →
      ((wssDurations r).map msVal).sum = msVal r.TotalTime) ∧
    ((wsDurations r).sum = r.TotalTime →
      ((wsDurations r).map msVal).sum = msVal r.TotalTime) := by
  unfold wssDurations wsDurations msVal
  simp only [List.map_cons, List.map_nil, List.sum_cons, List.sum_nil]
  constructor <;> intro h <;> omega

/-- The whole-millisecond Result of the spec's end-to-end scenario:
DNS=10ms, TCP=20ms, TLS=30ms, WS=15ms, RTT=5ms, Total=80ms. -/
def wholeResult : Result :=
  ⟨10000000, 20000000, 30000000, 15000000, 5000000,
   10000000, 30000000, 60000000, 75000000, 80000000, 1⟩

/-- C1 witness: at the spec's scenario values the printed wss-layout phase
durations sum to the printed Total. -/
theorem tieredSum_whole_ms_witness :
    ((wssDurations wholeResult).map msVal).sum = msVal wholeResult.TotalTime :=
  (tieredSum_whole_ms wholeResult (by decide) (by decide) (by decide) (by decide)
    (by decide)).1 (by decide)

set_option maxRecDepth 8192 in
/-- C5 counterexample: a transport failure consisting precisely of the TLS
first-record diagnostic is re-wrapped into a message that mentions neither
the insecure flag nor a scheme — no recommendation is present. -/
theorem errorClassifier_no_recommendation :
    containsSub tlsRecordDiagnostic tlsRecordDiagnostic = true ∧
    handleConnectionError tlsRecordDiagnostic (lit "wss://example.org") =
      lit "error establishing secure WS connection to 'wss://example.org': " ++
        tlsRecordDiagnostic ∧
    containsSub (handleConnectionError tlsRecordDiagnostic (lit "wss://example.org"))
      (lit "insecure") = false ∧
    containsSub (handleConnectionError tlsRecordDiagnostic (lit "wss://example.org"))
      (lit "scheme") = false := by decide

/-- C5 amended: failures containing the TLS first-record diagnostic are
re-wrapped as a "secure WS connection" error and all other failures as the
generic "WS connection" error; both forms carry the original failure
message and the target URL string verbatim, but the TLS branch adds no
recommendation text. -/
theorem errorClassifier_rewrap (e u : GoStr) :
    (containsSub e tlsRecordDiagnostic = true →
      handleConnectionError e u =
        lit "error establishing secure WS connection to '" ++ u ++ lit "': " ++ e) ∧
    (containsSub e tlsRecordDiagnostic = false →
      handleConnectionError e u =
        lit "error establishing WS connection to '" ++ u ++ lit "': " ++ e) ∧
    containsSub (handleConnectionError e u) e = true ∧
    containsSub (handleConnectionError e u) u = true := by
  refine ⟨fun h => by simp [handleConnectionError, h],
          fun h => by simp [handleConnectionError, h], ?_, ?_⟩
  · unfold handleConnectionError
    by_cases h : containsSub e tlsRecordDiagnostic = true
    · rw [if_pos h]
      exact containsSub_of_seg
        (lit "error establishing secure WS connection to '" ++ u ++ lit "': ") [] (by simp)
    · rw [if_neg h]
      exact containsSub_of_seg
        (lit "error establishing WS connection to '" ++ u ++ lit "': ") [] (by simp)
  · unfold handleConnectionError
    by_cases h : containsSub e tlsRecordDiagnostic = true
    · rw [if_pos h]
      exact containsSub_of_seg
        (lit "error establishing secure WS connection to '") (lit "': " ++ e) (by simp)
    · rw [if_neg h]
      exact containsSub_of_seg
        (lit "error establishing WS connection to '") (lit "': " ++ e) (by simp)

/-- C5 witness: a failure without the diagnostic is wrapped generically,
carrying message and target. -/
theorem errorClassifier_rewrap_witness :
    handleConnectionError (lit "connection refused") (lit "ws://example.org") =
      lit "error establishing WS connection to '" ++ lit "ws://example.org" ++
        lit "': " ++ lit "connection refused" :=
  (errorClassifier_rewrap (lit "connection refused") (lit "ws://example.org")).2.1 (by decide)

/-- A stub instrumentation collaborator whose every call fails with a fixed
transport error, for exercising the pipeline at concrete inputs. -/
def colStub : Collaborator :=
  ⟨fun _ _ _ => .error (lit "connection refused"),
   fun _ _ _ => .error (lit "connection refused"),
   fun _ _ _ => .error (lit "connection refused")⟩

/-- A stub instrumentation collaborator that echoes the sent messages back
and reports one fixed Result. -/
def colStubEcho : Collaborator :=
  ⟨fun _ msgs _ => .ok (⟨10000000, 20000000, 30000000, 15000000, 5000000,
      10000000, 30000000, 60000000, 75000000, 80000000, msgs.length⟩, .strList msgs),
   fun _ msgs _ => .ok (⟨10000000, 20000000, 30000000, 15000000, 5000000,
      10000000, 30000000, 60000000, 75000000, 80000000, msgs.length⟩, .strList []),
   fun _ _ _ => .ok ⟨10000000, 20000000, 30000000, 15000000, 5000000,
      10000000, 30000000, 60000000, 75000000, 80000000, 1⟩⟩

/-- A stub JSON decoder that rejects every string. -/
def unmStubFail : Unmarshal := fun _ => .error (lit "invalid character")

/-- A flag set with both message flags given. -/
def flTextJson : Flags := { textMessage := lit "hello", jsonMethod := lit "status" }

/-- C4 counterexample: with `-text` and `-json` both set the run fails
before measurement and prints the usage text, but the exit code is 1, not
the claimed 2. -/
theorem inputError_exit_code_counterexample :
    usagePrinted (mainRun flTextJson colStub unmStubFail [lit "example.org"]) = true ∧
    measurementAttempted (mainRun flTextJson colStub unmStubFail [lit "example.org"]) = false ∧
    exitCode (mainRun flTextJson colStub unmStubFail [lit "example.org"]) ≠ 2 ∧
    exitCode (mainRun flTextJson colStub unmStubFail [lit "example.org"]) = 1 := by decide

/-- C4 amended: every input-validation failure is detected before any call
to the measurement collaborator (the outcome does not depend on the
collaborator at all) and is reported with the usage text — but with exit
code 1, the same code as connection/measurement failures, which print no
usage text. -/
theorem inputValidation_before_measurement (fl : Flags) (col col' : Collaborator)
    (unm unm' : Unmarshal) (args : List GoStr) (m : GoStr) :
    (parseValidateInput fl args = .inputError m →
      mainRun fl col unm args = .inputFailure m ∧
      exitCode (mainRun fl col unm args) = 1 ∧
      usagePrinted (mainRun fl col unm args) = true ∧
      measurementAttempted (mainRun fl col unm args) = false ∧
      mainRun fl col unm args = mainRun fl col' unm' args) ∧
    (∀ (u : URL) (wt st : GoStr) (hs : HeaderSet),
      parseValidateInput fl args = .ok u wt st →
      parseHeaders fl.inputHeaders = some hs →
      measureLatency fl col unm u hs = .err m →
      mainRun fl col unm args = .measureFailure m ∧
      exitCode (mainRun fl col unm args) = 1 ∧
      usagePrinted (mainRun fl col unm args) = false ∧
      measurementAttempted (mainRun fl col unm args) = true) := by
  constructor
  · intro h
    simp [mainRun, h, exitCode, usagePrinted, measurementAttempted]
  · intro u wt st hs h1 h2 h3
    simp [mainRun, h1, h2, h3, exitCode, usagePrinted, measurementAttempted]

/-- C4 witness: the flag set with both message flags produces the
validation failure outcome with exit code 1 and the usage text. -/
theorem inputValidation_before_measurement_witness :
    mainRun flTextJson colStub unmStubFail [lit "example.org"] =
      .inputFailure (lit "mutually exclusive messaging flags") ∧
    exitCode (mainRun flTextJson colStub unmStubFail [lit "example.org"]) = 1 ∧
    measurementAttempted (mainRun flTextJson colStub unmStubFail [lit "example.org"]) = false := by
  have h := (inputValidation_before_measurement flTextJson colStub colStub unmStubFail
    unmStubFail [lit "example.org"] (lit "mutually exclusive messaging flags")).1 (by decide)
  exact ⟨h.1, h.2.1, h.2.2.2.1⟩

/-- The wss template after the one-shot label substitution
`parseValidateInput` performs for burst counts above 1. -/
def wssMeanTemplate : GoStr :=
  goReplace (lit "Message RTT") (lit "Mean Message RTT") 1 wssPrintTemplate

/-- The ws template after the one-shot label substitution. -/
def wsMeanTemplate : GoStr :=
  goReplace (lit "Message RTT") (lit "Mean Message RTT") 1 wsPrintTemplate

/-- A successful validation hands the renderer exactly one pair of
templates: the substituted pair when the burst flag exceeds 1 and the
original pair otherwise. -/
lemma parseValidateInput_ok_templates (fl : Flags) (args : List GoStr) (u : URL)
    (wt st : GoStr) (h : parseValidateInput fl args = .ok u wt st) :
    (fl.burst > 1 ∧ wt = wssMeanTemplate ∧ st = wsMeanTemplate) ∨
    (¬ fl.burst > 1 ∧ wt = wssPrintTemplate ∧ st = wsPrintTemplate) := by
  unfold parseValidateInput at h
  split at h
  · exact absurd h (by simp)
  · split at h
    · exact absurd h (by simp)
    · split at h
      · exact absurd h (by simp)
      · split at h
        · exact absurd h (by simp)
        · split at h
          · split at h
            · exact absurd h (by simp)
            · split at h
              · next hb =>
                left
                injection h with h1 h2 h3
                exact ⟨hb, h2.symm, h3.symm⟩
              · next hb =>
                right
                injection h with h1 h2 h3
                exact ⟨hb, h2.symm, h3.symm⟩
          · exact absurd h (by simp)

set_option maxRecDepth 16384 in
/-- C6: when the burst flag exceeds 1, validation hands the renderers the
once-substituted templates (the substitution is applied exactly once — one
"Mean" occurrence — and happens in `parseValidateInput`, before any
rendering); every tiered report rendered from those templates reads "Mean
Message RTT", the basic renderer's label reads "Mean round-trip time", and
the message count it prints equals the burst count whenever the Result's
count is the count of messages sent. -/
theorem burstMeanLabel (fl : Flags) (args : List GoStr) (u uR : URL) (wt st : GoStr)
    (r : Result) (hb : fl.burst > 1)
    (hok : parseValidateInput fl args = .ok u wt st) :
    (wt = wssMeanTemplate ∧ st = wsMeanTemplate) ∧
    (countSub wt (lit "Mean") = 1 ∧ countSub st (lit "Mean") = 1) ∧
    ((uR.scheme = lit "wss" ∨ uR.scheme = lit "ws") →
      containsSub (printTimingResultsTiered wt st uR r) (lit "Mean Message RTT") = true) ∧
    rttLabel fl.burst = lit "Mean round-trip time" ∧
    (r.MessageCount = fl.burst.toNat →
      printTimingResultsBasic fl.burst r =
        lit "\n" ++ lit "Mean round-trip time" ++ lit ": " ++
        colorWSOrange (natToStr (msVal r.MessageRTT) ++ lit "ms") ++
        lit " (" ++ natToStr fl.burst.toNat ++ lit " " ++ lit "messages" ++ lit ")\n" ++
        lit "Total time: " ++ colorWSOrange (natToStr (msVal r.TotalTime) ++ lit "ms") ++
        lit "\n\n") := by
  rcases parseValidateInput_ok_templates fl args u wt st hok with
    ⟨_, hw, hs⟩ | ⟨hnb, _, _⟩
  · subst hw; subst hs
    refine ⟨⟨rfl, rfl⟩, ⟨by decide, by decide⟩, ?_, ?_, ?_⟩
    · rintro (hsch | hsch)
      · unfold printTimingResultsTiered
        rw [if_pos hsch]
        refine containsSub_grow _ _ (containsSub_goFormat_of_head
          (lit "  DNS Lookup    TCP Connection    TLS Handshake    WS Handshake    Mean Message RTT\n|")
          (lit "Mean Message RTT") _ (by decide) (by decide) (by decide))
      · unfold printTimingResultsTiered
        rw [if_neg (by rw [hsch]; decide), if_pos hsch]
        refine containsSub_grow _ _ (containsSub_goFormat_of_head
          (lit "  DNS Lookup    TCP Connection    WS Handshake    Mean Message RTT\n|")
          (lit "Mean Message RTT") _ (by decide) (by decide) (by decide))
    · unfold rttLabel
      rw [if_pos hb]
    · intro hmc
      unfold printTimingResultsBasic rttLabel msgCountLabel
      rw [hmc, if_pos hb, if_pos (show fl.burst.toNat > 1 by omega)]
  · exact absurd hb hnb

/-- The flag set of the spec's burst scenario. -/
def flBurst5 : Flags := { burst := 5 }

/-- A Result reporting five sent messages. -/
def result5 : Result :=
  ⟨10000000, 20000000, 30000000, 15000000, 5000000,
   10000000, 30000000, 60000000, 75000000, 80000000, 5⟩

set_option maxRecDepth 16384 in
/-- C6 witness: with `-burst 5` the validated templates are the
mean-labelled ones, the rendered wss report reads "Mean Message RTT", and
the basic label reads "Mean round-trip time". -/
theorem burstMeanLabel_witness :
    containsSub (printTimingResultsTiered wssMeanTemplate wsMeanTemplate
      ⟨lit "wss", lit "//example.org"⟩ result5) (lit "Mean Message RTT") = true ∧
    rttLabel flBurst5.burst = lit "Mean round-trip time" := by
  have h := burstMeanLabel flBurst5 [lit "example.org"] ⟨lit "wss", lit "//example.org"⟩
    ⟨lit "wss", lit "//example.org"⟩ wssMeanTemplate wsMeanTemplate result5
    (by decide) (by decide)
  exact ⟨h.2.2.1 (Or.inl rfl), h.2.2.2.1⟩

/-- Text mode with a zero burst count and raw output. -/
def flBurst0Text : Flags := { burst := 0, textMessage := lit "hi", rawOutput := true }

/-- Text mode with a negative burst count. -/
def flBurstNegText : Flags := { burst := -1, textMessage := lit "hi" }

/-- Ping mode with a negative burst count. -/
def flBurstNegPing : Flags := { burst := -1 }

set_option maxRecDepth 16384 in
/-- C7: the burst count is never validated.  A zero count passes input
validation untouched and the measurement collaborator is called (here: the
run completes); in text mode a negative count panics in
`make([]string, *burst)` before the collaborator call; in ping mode a
negative count is forwarded to the collaborator as is.  Only
`-burst 1`, being the flag's default, coincides with no burst at all. -/
theorem burstCount_not_validated :
    parseValidateInput flBurst0Text [lit "example.org"] =
      .ok ⟨lit "wss", lit "//example.org"⟩ wssPrintTemplate wsPrintTemplate ∧
    measurementAttempted (mainRun flBurst0Text colStubEcho unmStubFail [lit "example.org"]) = true ∧
    usagePrinted (mainRun flBurst0Text colStubEcho unmStubFail [lit "example.org"]) = false ∧
    exitCode (mainRun flBurst0Text colStubEcho unmStubFail [lit "example.org"]) = 0 ∧
    ranIntoPanic (mainRun flBurstNegText colStubEcho unmStubFail [lit "example.org"]) = true ∧
    measurementAttempted (mainRun flBurstNegPing colStub unmStubFail [lit "example.org"]) = true ∧
    ({ burst := 1 } : Flags) = ({ } : Flags) := by decide

set_option maxRecDepth 16384 in
/-- C8 counterexample: the resolver accepts `http://h` unchanged, the
resulting scheme is neither `ws` nor `wss`, and the tiered renderer then
prints an empty diagram — just the two framing blank lines. -/
theorem schemeInvariant_counterexample :
    parseWSURI false (lit "http://h") = .ok ⟨lit "http", lit "//h"⟩ ∧
    ((lit "http" : GoStr) ≠ lit "ws" ∧ (lit "http" : GoStr) ≠ lit "wss") ∧
    printTimingResultsTiered wssPrintTemplate wsPrintTemplate ⟨lit "http", lit "//h"⟩
      ⟨10000000, 20000000, 30000000, 15000000, 5000000,
       10000000, 30000000, 60000000, 75000000, 80000000, 1⟩ = lit "\n" ++ lit "\n" := by
  refine ⟨rfl, ⟨by decide, by decide⟩, rfl⟩

/-- C8 amended: only for inputs without a scheme separator (and free of
control characters) is the resolved scheme guaranteed to be `ws` or `wss`,
and for those the tiered renderer always has a matching template and
renders a non-empty diagram; an input carrying another explicit scheme
passes through the resolver and the tiered renderer prints no diagram for
it. -/
theorem schemeInvariant_amended (i : Bool) (s : GoStr) (r : Result)
    (h1 : containsSub s (lit "://") = false) (h2 : containsCTL s = false) :
    parseWSURI i s = .ok ⟨if i then lit "ws" else lit "wss", lit "//" ++ s⟩ ∧
    ((if i then lit "ws" else lit "wss") = lit "ws" ∨
     (if i then lit "ws" else lit "wss") = lit "wss") ∧
    containsSub (printTimingResultsTiered wssPrintTemplate wsPrintTemplate
      ⟨if i then lit "ws" else lit "wss", lit "//" ++ s⟩ r) (lit "DNS Lookup") = true := by
  refine ⟨parseWSURI_noSep i s h1 h2, by cases i <;> simp, ?_⟩
  cases i with
  | true =>
    show containsSub (printTimingResultsTiered wssPrintTemplate wsPrintTemplate
      ⟨lit "ws", lit "//" ++ s⟩ r) (lit "DNS Lookup") = true
    unfold printTimingResultsTiered
    rw [if_neg (fun h => absurd (show (lit "ws" : GoStr) = lit "wss" from h) (by decide)),
      if_pos rfl]
    refine containsSub_grow _ _ (containsSub_goFormat_of_head
      (lit "  DNS Lookup") (lit "DNS Lookup") _ (by decide) (by decide) (by decide))
  | false =>
    show containsSub (printTimingResultsTiered wssPrintTemplate wsPrintTemplate
      ⟨lit "wss", lit "//" ++ s⟩ r) (lit "DNS Lookup") = true
    unfold printTimingResultsTiered
    rw [if_pos rfl]
    refine containsSub_grow _ _ (containsSub_goFormat_of_head
      (lit "  DNS Lookup") (lit "DNS Lookup") _ (by decide) (by decide) (by decide))

/-- C8 witness: the bare host resolves to scheme `wss` and the tiered
renderer produces a diagram containing the phase headers. -/
theorem schemeInvariant_amended_witness :
    parseWSURI false (lit "example.org") =
      .ok ⟨lit "wss", lit "//" ++ lit "example.org"⟩ ∧
    containsSub (printTimingResultsTiered wssPrintTemplate wsPrintTemplate
      ⟨lit "wss", lit "//" ++ lit "example.org"⟩ wholeResult) (lit "DNS Lookup") = true := by
  have h := schemeInvariant_amended false (lit "example.org") wholeResult
    (by decide) (by decide)
  exact ⟨h.1, h.2.2⟩

/-- C9: with raw output unset, an object payload is JSON-encoded exactly
when the run was JSON-flavored (a `jsonrpc` key in the object or the
`-json` method flag), printed natively otherwise; sequence and byte
payloads always print natively; a nil response prints nothing. -/
theorem responseRenderer_json_choice (fl : Flags) (m : List (GoStr × GoValue))
    (l : List GoValue) (b : List Nat) (hraw : fl.rawOutput = false) :
    (printResponseChoice fl (some (.obj m)) = .jsonEncoded m ↔
      (hasKey m (lit "jsonrpc") = true ∨ fl.jsonMethod.isEmpty = false)) ∧
    ((hasKey m (lit "jsonrpc") = false ∧ fl.jsonMethod.isEmpty = true) →
      printResponseChoice fl (some (.obj m)) = .nativeObj m) ∧
    printResponseChoice fl (some (.arr l)) = .nativeArr l ∧
    printResponseChoice fl (some (.bytes b)) = .nativeBytes b ∧
    printResponseChoice fl none = .nothing := by
  unfold printResponseChoice
  simp only [hraw, Bool.false_eq_true, if_false]
  refine ⟨?_, ?_, trivial, trivial, trivial⟩
  · cases hk : hasKey m (lit "jsonrpc") <;> cases hj : fl.jsonMethod.isEmpty <;>
      simp [hk, hj]
  · rintro ⟨hk, hj⟩
    simp [hk, hj]

/-- C9 witness: a `jsonrpc`-shaped object is JSON-encoded; the spec's
`-text hello` echo object `{"echo": "hello"}` prints in native map form. -/
theorem responseRenderer_json_choice_witness :
    printResponseChoice { } (some (.obj [(lit "jsonrpc", .str (lit "2.0"))])) =
      .jsonEncoded [(lit "jsonrpc", .str (lit "2.0"))] ∧
    printResponseChoice { } (some (.obj [(lit "echo", .str (lit "hello"))])) =
      .nativeObj [(lit "echo", .str (lit "hello"))] := by
  have h1 := responseRenderer_json_choice { } [(lit "jsonrpc", .str (lit "2.0"))] [] [] rfl
  have h2 := responseRenderer_json_choice { } [(lit "echo", .str (lit "hello"))] [] [] rfl
  exact ⟨h1.1.mpr (Or.inl (by decide)), h2.2.1 ⟨by decide, rfl⟩⟩

/-- C10: in text mode with raw output unset, the first string of the
returned sequence is JSON-decoded, and a decode failure turns the whole
(measurement-wise successful) invocation into an unmarshalling error: main
exits with code 1, prints no usage text, and no response — in particular no
plain text echo — is ever rendered. -/
theorem textMode_unmarshal_failure (fl : Flags) (col : Collaborator) (unm : Unmarshal)
    (args : List GoStr) (u : URL) (wt st : GoStr) (hset : HeaderSet) (r : Result)
    (s : GoStr) (rest : List GoStr) (e : GoStr)
    (htext : fl.textMessage.isEmpty = false) (hraw : fl.rawOutput = false)
    (hb : 0 ≤ fl.burst)
    (hok : parseValidateInput fl args = .ok u wt st)
    (hh : parseHeaders fl.inputHeaders = some hset)
    (hcol : col.measureBurst u (List.replicate fl.burst.toNat fl.textMessage) hset =
      .ok (r, .strList (s :: rest)))
    (hunm : unm s = .error e) :
    measureLatency fl col unm u hset =
      .err (lit "error unmarshalling JSON message: " ++ e) ∧
    mainRun fl col unm args =
      .measureFailure (lit "error unmarshalling JSON message: " ++ e) ∧
    exitCode (mainRun fl col unm args) = 1 ∧
    usagePrinted (mainRun fl col unm args) = false := by
  have hml : measureLatency fl col unm u hset =
      .err (lit "error unmarshalling JSON message: " ++ e) := by
    unfold measureLatency mkSlice
    rw [htext]
    simp only [Bool.not_false, if_true, if_neg (show ¬ fl.burst < 0 by omega), hcol, hraw,
      hunm]
  refine ⟨hml, ?_, ?_, ?_⟩ <;>
    simp [mainRun, hok, hh, hml, exitCode, usagePrinted]

/-- Plain text mode flag set. -/
def flTextHello : Flags := { textMessage := lit "hello" }

set_option maxRecDepth 16384 in
/-- C10 witness: a collaborator echoing the non-JSON text `hello` makes the
invocation fail with the unmarshalling error and exit code 1. -/
theorem textMode_unmarshal_failure_witness :
    mainRun flTextHello colStubEcho unmStubFail [lit "ws://x"] =
      .measureFailure (lit "error unmarshalling JSON message: " ++ lit "invalid character") ∧
    exitCode (mainRun flTextHello colStubEcho unmStubFail [lit "ws://x"]) = 1 := by
  have h := textMode_unmarshal_failure flTextHello colStubEcho unmStubFail [lit "ws://x"]
    ⟨lit "ws", lit "//x"⟩ wssPrintTemplate wsPrintTemplate []
    ⟨10000000, 20000000, 30000000, 15000000, 5000000,
     10000000, 30000000, 60000000, 75000000, 80000000, 1⟩
    (lit "hello") [] (lit "invalid character")
    rfl rfl (by decide) (by decide) (by decide) rfl rfl
  exact ⟨h.2.1, h.2.2.1⟩

end Wsstat
